import Mathlib

/-!
Shallow embedding of `archivebox/extractors/singlefile.py`.

The only source file of the repository is `singlefile.py`; the helpers it
imports (`run`, `chmod_file`, `chrome_args`, `is_static_file`, `json.dumps`,
`TimedProgress`, the configuration globals) live outside the given sources and
are modelled from the spec as explicit parameters of the embedding.

Strings are modelled at the level of their character lists (`String.data`);
Python's `str.split(sep)`, `str.strip()` and `str.replace` are re-implemented
below as structural recursions so that concrete instances evaluate in the
kernel.
-/

namespace SingleFile

/-- Python `s.split(c)` on a character list: split at every occurrence of `c`,
keeping empty pieces (`"".split(c) == [""]`, a trailing separator yields a
trailing empty piece). -/
def splitChar (c : Char) : List Char → List (List Char)
  | [] => [[]]
  | a :: rest =>
    match splitChar c rest with
    | [] => if a = c then [[], []] else [[a]]
    | h :: t => if a = c then [] :: h :: t else (a :: h) :: t

/-- Python `s.split(c)` on strings. -/
def pySplit (s : String) (c : Char) : List String :=
  (splitChar c s.data).map String.mk

/-- Python `s.strip()`: drop whitespace from both ends. -/
def pyStrip (s : String) : String :=
  String.mk (((s.data.dropWhile Char.isWhitespace).reverse.dropWhile
      Char.isWhitespace).reverse)

/-- Python `s.replace('"', '\\"')` (line 103): every `"` character becomes
the two characters `\"`.  The pattern being a single character, the general
`str.replace` specialises to a per-character expansion. -/
def escapeQuotes (s : String) : String :=
  String.mk (s.data.foldr
    (fun c acc => if c = '"' then '\\' :: '"' :: acc else c :: acc) [])

/-- Modelled from the spec: Python's `json.dumps` applied to a list of
strings (standard library, not part of the sources).  Elements are quoted
with `"` / `\` escaped and joined by `", "` inside brackets; control-character
escaping is irrelevant to the claims and omitted. -/
def jsonQuote (s : String) : String :=
  "\"" ++ String.mk (s.data.foldr
    (fun c acc =>
      if c = '"' then '\\' :: '"' :: acc
      else if c = '\\' then '\\' :: '\\' :: acc
      else c :: acc) []) ++ "\""

/-- Modelled from the spec: `json.dumps` on a list of strings. -/
def jsonDumps (l : List String) : String :=
  "[" ++ String.intercalate ", " (l.map jsonQuote) ++ "]"

/-- `option_name` of an argument (line 63): `argument.split("=")[0]`, the
substring before the first `=`, or the whole string when it has no `=`. -/
def optionName (argument : String) : String :=
  (pySplit argument '=').headD ""

/-- The stateful `test_seen` filter of lines 61-69, written as a structural
recursion over the argument list carrying the `seen_option_names` list:
an argument passes iff its option name is not in `seen`, in which case the
name is appended to `seen`. -/
def dedupeGo (seen : List String) : List String → List String
  | [] => []
  | argument :: rest =>
    if optionName argument ∈ seen then dedupeGo seen rest
    else argument :: dedupeGo (seen ++ [optionName argument]) rest

/-- `deduped_options = list(filter(test_seen, options))` (line 69). -/
def dedupedOptions (options : List String) : List String :=
  dedupeGo [] options

/-- The configuration globals read by the module, plus the shared helpers it
calls that live outside the sources.  `chrome_args` is modelled from the spec:
a shared argument-generation helper taking the capture timeout override and
returning an argument list whose head is the browser binary. -/
structure Config where
  SINGLEFILE_ARGS : List String
  CHROME_BINARY : String
  SINGLEFILE_BINARY : String
  SINGLEFILE_VERSION : String
  SAVE_SINGLEFILE : Bool
  chrome_args : Nat → List String

/-- `browser_args = '--browser-args={}'.format(json.dumps(browser_args[1:]))`
where `browser_args = chrome_args(CHROME_TIMEOUT=0)` (lines 45-48). -/
def browserArgsStr (cfg : Config) : String :=
  "--browser-args=" ++ jsonDumps ((cfg.chrome_args 0).drop 1)

/-- The `options` list of lines 49-53: the configured extra args, then the
browser-executable-path argument, then the serialized browser-args blob. -/
def optionsList (cfg : Config) : List String :=
  cfg.SINGLEFILE_ARGS ++
    ["--browser-executable-path=" ++ cfg.CHROME_BINARY, browserArgsStr cfg]

/-- The `cmd` list of lines 71-76: binary path, deduplicated options, target
URL, fixed output filename. -/
def buildCmd (cfg : Config) (url : String) : List String :=
  cfg.SINGLEFILE_BINARY :: dedupedOptions (optionsList cfg) ++
    [url, "singlefile.html"]

/-- Outcome of a completed `run` call: exit code and the captured output
streams (already decoded; the byte/str distinction is not modelled). -/
structure RunOutcome where
  returncode : Int
  stdout : String
  stderr : String
deriving DecidableEq, Repr

/-- Modelled from the spec: behaviour of the external `run` helper (§4.3,
not in the sources).  It either returns a completed `RunOutcome` (any exit
code, including non-zero), or raises: `TimeoutExpired` when the deadline
elapsed (the child is killed first), or `OSError` when the process could not
be launched (binary missing/unexecutable). -/
inductive RunResult where
  | ok (result : RunOutcome)
  | timeoutExpired
  | osError
deriving DecidableEq, Repr

/-- The ambient behaviour of one invocation: what `run` does, and whether
`(out_dir / 'singlefile.html').is_file()` holds after it. -/
structure Env where
  run_result : RunResult
  artifact_is_file : Bool
deriving DecidableEq, Repr

/-- The `ArchiveError` caught on the failure path: its message and the hint
list attached to it (line 104 overwrites the hints it was constructed with). -/
structure CaptureError where
  msg : String
  hints : List String
deriving DecidableEq, Repr

/-- The `output` field of an `ArchiveResult`: the artifact filename on
success, the caught error on failure. -/
inductive Output where
  | artifact (name : String)
  | error (e : CaptureError)
deriving DecidableEq, Repr

/-- The fields of the returned `ArchiveResult` that the module itself
determines (the `**timer.stats` timing fields come from `TimedProgress`,
which is outside the sources, and are not modelled). -/
structure ArchiveResult where
  cmd : List String
  pwd : String
  cmd_version : String
  output : Output
  status : String
deriving DecidableEq, Repr

/-- What one invocation of `save_singlefile` did: the returned record plus
whether `chmod_file` was invoked on the artifact. -/
structure SaveOutcome where
  result : ArchiveResult
  chmod_called : Bool
deriving DecidableEq, Repr

/-- An exception escaping `save_singlefile` itself.  `attributeError` is
Python's `AttributeError: 'NoneType' object has no attribute 'stdout'`,
raised at line 104 when `result` is still `None`. -/
inductive PyError where
  | attributeError
deriving DecidableEq, Repr

/-- The `output_tail` of lines 86-90:
`[line.strip() for line in combined.rsplit('\n', 5)[-5:] if line.strip()]`.
`rsplit('\n', 5)[-5:]` equals the last five `'\n'`-separated segments of the
string (when there are at least six segments the first piece of the `rsplit`
keeps the unsplit head and `[-5:]` drops it; with five or fewer segments
everything is kept), so it is modelled as `take`-from-the-right of the full
split. -/
def outputTail (combined : String) : List String :=
  let pieces := pySplit combined '\n'
  ((pieces.drop (pieces.length - 5)).map pyStrip).filter (fun l => l ≠ "")

/-- The `hints` tuple of lines 91-94: the synthetic exit-code hint followed
by the output tail. -/
def hintsOf (returncode : Int) (combined : String) : List String :=
  ("Got single-file response code: " ++ toString returncode ++ ".") ::
    outputTail combined

/-- `save_singlefile` (lines 38-116) as a function of the configuration, the
link URL, the output directory and the ambient behaviour.  Control flow:

* `run` raises (timeout or launch failure): the `except` block runs with
  `result = None`; line 104 evaluates `result.stdout` and raises
  `AttributeError`, which propagates — no `ArchiveResult` is built.
* `run` returns with `returncode > 0` or no artifact file: `ArchiveError`
  is raised with the tail hints, caught; `status = 'failed'`, `cmd[2]` is
  overwritten with the quote-escaped browser-args string, the error's hints
  are replaced by the full output split on newlines, and the error becomes
  the `output` field.
* otherwise: `chmod_file` runs (modelled as succeeding; it is outside the
  sources) and the record is returned with `status = 'succeeded'`. -/
def save_singlefile (cfg : Config) (url : String) (out_dir : String)
    (env : Env) : Except PyError SaveOutcome :=
  let output := "singlefile.html"
  let browser_args := browserArgsStr cfg
  let cmd := buildCmd cfg url
  match env.run_result with
  | .ok result =>
    let combined := result.stdout ++ result.stderr
    let hints := hintsOf result.returncode combined
    if result.returncode > 0 ∨ env.artifact_is_file = false then
      -- `raise ArchiveError(..., hints)` caught by the `except` block, which
      -- then overwrites `err.hints` with the full output split (line 104)
      let err0 : CaptureError :=
        { msg := "SingleFile was not able to archive the page (status=" ++
            toString result.returncode ++ ")"
          hints := hints }
      let err : CaptureError := { err0 with hints := pySplit combined '\n' }
      .ok { result :=
              { cmd := cmd.set 2 (escapeQuotes browser_args)
                pwd := out_dir
                cmd_version := cfg.SINGLEFILE_VERSION
                output := .error err
                status := "failed" }
            chmod_called := false }
    else
      .ok { result :=
              { cmd := cmd
                pwd := out_dir
                cmd_version := cfg.SINGLEFILE_VERSION
                output := .artifact output
                status := "succeeded" }
            chmod_called := true }
  | .timeoutExpired => .error .attributeError
  | .osError => .error .attributeError

/-- `should_save_singlefile` (lines 26-35).  `is_static` is the value of the
external predicate `is_static_file(link.url)`, `artifact_is_file` the value
of `(out_dir / 'singlefile.html').exists()`; both helpers live outside the
sources.  The function is a pure decision: it writes nothing. -/
def should_save_singlefile (cfg : Config) (is_static : Bool)
    (artifact_is_file : Bool) (overwrite : Bool) : Bool :=
  if is_static then false
  else if !overwrite && artifact_is_file then false
  else cfg.SAVE_SINGLEFILE

/-! ### General lemmas about the deduplication filter -/

theorem dedupeGo_sublist (seen : List String) (l : List String) :
    List.Sublist (dedupeGo seen l) l := by
  induction l generalizing seen with
  | nil => simp [dedupeGo]
  | cons a rest ih =>
    simp only [dedupeGo]
    split
    · exact (ih seen).cons a
    · exact (ih _).cons₂ a

theorem optionName_not_seen_of_mem_dedupeGo {seen l : List String} {b : String}
    (hb : b ∈ dedupeGo seen l) : optionName b ∉ seen := by
  induction l generalizing seen with
  | nil => simp [dedupeGo] at hb
  | cons a rest ih =>
    simp only [dedupeGo] at hb
    split at hb
    · exact ih hb
    · rcases List.mem_cons.mp hb with rfl | hb'
      · assumption
      · exact fun hm => ih hb' (List.mem_append_left _ hm)

theorem dedupeGo_keys_nodup (seen l : List String) :
    ((dedupeGo seen l).map optionName).Nodup := by
  induction l generalizing seen with
  | nil => simp [dedupeGo]
  | cons a rest ih =>
    simp only [dedupeGo]
    split
    · exact ih seen
    · simp only [List.map_cons, List.nodup_cons]
      refine ⟨fun hmem => ?_, ih _⟩
      rcases List.mem_map.mp hmem with ⟨b, hb, hname⟩
      exact optionName_not_seen_of_mem_dedupeGo hb (by simp [hname])

theorem dedupeGo_covers {seen l : List String} {a : String} (ha : a ∈ l)
    (hn : optionName a ∉ seen) :
    ∃ b ∈ dedupeGo seen l, optionName b = optionName a := by
  induction l generalizing seen with
  | nil => cases ha
  | cons x rest ih =>
    simp only [dedupeGo]
    rcases List.mem_cons.mp ha with rfl | ha'
    · split
      · exact absurd (by assumption) hn
      · exact ⟨a, List.mem_cons_self _ _, rfl⟩
    · split
      · exact ih ha' hn
      · by_cases hax : optionName a = optionName x
        · exact ⟨x, List.mem_cons_self _ _, hax.symm⟩
        · have hnn : optionName a ∉ seen ++ [optionName x] := by
            intro hm
            rcases List.mem_append.mp hm with h1 | h2
            · exact hn h1
            · exact hax (by simpa using h2)
          obtain ⟨b, hb, he⟩ := @ih (seen ++ [optionName x]) ha' hnn
          exact ⟨b, List.mem_cons_of_mem _ hb, he⟩

theorem dedupeGo_first_wins {seen l : List String} {b : String}
    (hb : b ∈ dedupeGo seen l) :
    l.find? (fun x => optionName x == optionName b) = some b := by
  induction l generalizing seen with
  | nil => simp [dedupeGo] at hb
  | cons a rest ih =>
    simp only [dedupeGo] at hb
    split at hb
    · rename_i hseen
      have hnb : optionName b ∉ seen := optionName_not_seen_of_mem_dedupeGo hb
      have hne : ¬ (optionName a == optionName b) = true := by
        simpa using fun h : optionName a = optionName b => hnb (h ▸ hseen)
      rw [@List.find?_cons_of_neg _ (fun x => optionName x == optionName b) a rest hne]
      exact ih hb
    · rcases List.mem_cons.mp hb with rfl | hb'
      · exact List.find?_cons_of_pos _ (by simp)
      · have hnb := optionName_not_seen_of_mem_dedupeGo hb'
        have hne : ¬ (optionName a == optionName b) = true := by
          simpa using fun h : optionName a = optionName b => hnb (by simp [h])
        rw [@List.find?_cons_of_neg _ (fun x => optionName x == optionName b) a rest hne]
        exact ih hb'

/-! ### General lemmas about the hint-tail computation -/

/-- Following the spec's words (§4.4): "take the combined captured output,
split into lines, strip blank lines" — the stripped non-empty lines of the
output, used to compare the code's tail computation against the spec's
description of it. -/
def specNonEmptyLines (s : String) : List String :=
  ((pySplit s '\n').map pyStrip).filter (fun l => l ≠ "")

theorem outputTail_suffix (s : String) :
    List.IsSuffix (outputTail s) (specNonEmptyLines s) := by
  simp only [outputTail, specNonEmptyLines]
  exact List.IsSuffix.filter _ (List.IsSuffix.map _ (List.drop_suffix _ _))

theorem outputTail_length_le (s : String) : (outputTail s).length ≤ 5 := by
  simp only [outputTail]
  refine le_trans (List.length_filter_le _ _) ?_
  rw [List.length_map, List.length_drop]
  omega

/-! ### General lemmas about option names and the built command -/

theorem splitChar_ne_nil (c : Char) (l : List Char) : splitChar c l ≠ [] := by
  cases l with
  | nil => simp [splitChar]
  | cons a rest =>
    simp only [splitChar]
    split <;> split <;> simp

theorem splitChar_append_cons (c : Char) (l₁ l₂ : List Char) (h : c ∉ l₁) :
    splitChar c (l₁ ++ c :: l₂) = l₁ :: splitChar c l₂ := by
  induction l₁ with
  | nil =>
    simp only [List.nil_append, splitChar]
    cases hs : splitChar c l₂ with
    | nil => exact absurd hs (splitChar_ne_nil c l₂)
    | cons x t => simp
  | cons a as ih =>
    have hac : a ≠ c := fun he => h (he ▸ List.mem_cons_self a as)
    have has : c ∉ as := fun hm => h (List.mem_cons_of_mem a hm)
    rw [List.cons_append]
    show (match splitChar c (as ++ c :: l₂) with
        | [] => if a = c then [[], []] else [[a]]
        | x :: t => if a = c then [] :: x :: t else (a :: x) :: t) =
      (a :: as) :: splitChar c l₂
    rw [ih has]
    simp [hac]

/-- The option name of `pre ++ "=" ++ suf` is `pre` when `pre` itself has
no `=`: the value after the first `=` never affects deduplication. -/
theorem optionName_concat (pre suf : String) (h : '=' ∉ pre.data) :
    optionName (pre ++ "=" ++ suf) = pre := by
  simp only [optionName, pySplit]
  have hd : (pre ++ "=" ++ suf).data = pre.data ++ '=' :: suf.data := by
    simp [String.data_append]
  rw [hd, splitChar_append_cons _ _ _ h]
  simp

theorem optionName_exe_arg (cb : String) :
    optionName ("--browser-executable-path=" ++ cb) =
      "--browser-executable-path" :=
  optionName_concat "--browser-executable-path" cb (by decide)

theorem optionName_browser_args (cfg : Config) :
    optionName (browserArgsStr cfg) = "--browser-args" :=
  optionName_concat "--browser-args" (jsonDumps ((cfg.chrome_args 0).drop 1))
    (by decide)

theorem two_le_length_of_two_mem {α : Type} {l : List α} {a b : α}
    (ha : a ∈ l) (hb : b ∈ l) (hab : a ≠ b) : 2 ≤ l.length := by
  match l with
  | [] => cases ha
  | [x] =>
    rw [List.mem_singleton] at ha hb
    exact absurd (ha.trans hb.symm) hab
  | x :: y :: t => simp

/-- The deduplicated options always keep at least two entries: one carrying
the `--browser-executable-path` option name and one carrying
`--browser-args`. -/
theorem two_le_dedupedOptions_length (cfg : Config) :
    2 ≤ (dedupedOptions (optionsList cfg)).length := by
  have hmem1 : ("--browser-executable-path=" ++ cfg.CHROME_BINARY) ∈
      optionsList cfg := by simp [optionsList]
  have hmem2 : browserArgsStr cfg ∈ optionsList cfg := by simp [optionsList]
  obtain ⟨b1, hb1, he1⟩ := dedupeGo_covers hmem1 (List.not_mem_nil _)
  obtain ⟨b2, hb2, he2⟩ := dedupeGo_covers hmem2 (List.not_mem_nil _)
  rw [optionName_exe_arg] at he1
  rw [optionName_browser_args] at he2
  have hne : b1 ≠ b2 := by
    intro h
    rw [h, he2] at he1
    exact absurd he1 (by decide)
  exact two_le_length_of_two_mem hb1 hb2 hne

theorem two_lt_buildCmd_length (cfg : Config) (url : String) :
    2 < (buildCmd cfg url).length := by
  have := two_le_dedupedOptions_length cfg
  simp only [buildCmd, List.length_cons, List.length_append]
  omega

/-- Overwriting index `n` of a list (with `n` in bounds) gives back the same
list exactly when that index already held the new value. -/
theorem set_eq_self_iff {α : Type} (l : List α) (n : Nat) (v : α)
    (h : n < l.length) : l.set n v = l ↔ l[n]? = some v := by
  constructor
  · intro he
    have h2 : (l.set n v)[n]? = l[n]? := by rw [he]
    rw [List.getElem?_set] at h2
    simp only [if_pos rfl, if_pos h] at h2
    exact h2.symm
  · intro hv
    refine List.ext_getElem? fun i => ?_
    rw [List.getElem?_set]
    by_cases hni : n = i
    · subst hni
      rw [if_pos rfl, if_pos h]
      exact hv.symm
    · rw [if_neg hni]

/-! ### Concrete fixtures -/

/-- A demonstration configuration with three extra arguments, two of which
share the option name `--a`. -/
def cfgDemo : Config :=
  { SINGLEFILE_ARGS := ["--a=1", "--b=2", "--a=9"]
    CHROME_BINARY := "chrome"
    SINGLEFILE_BINARY := "single-file"
    SINGLEFILE_VERSION := "1.0.0"
    SAVE_SINGLEFILE := true
    chrome_args := fun _ => ["chrome", "--headless"] }

/-- A configuration with non-empty extra args in which the escaped
browser-args string coincides with the element deduplication places at
index 2 of the command: the helper returns only the browser binary, so the
serialized blob is the quote-free `--browser-args=[]`, and the extra args
already contain that very string. -/
def cfgCoincide : Config :=
  { SINGLEFILE_ARGS := ["--a=1", "--browser-args=[]"]
    CHROME_BINARY := "chrome"
    SINGLEFILE_BINARY := "single-file"
    SINGLEFILE_VERSION := "1.0.0"
    SAVE_SINGLEFILE := true
    chrome_args := fun _ => ["chrome"] }

/-- The process was killed by a signal (negative exit code, as POSIX reports
it) and the artifact exists. -/
def envSignal : Env :=
  { run_result := .ok { returncode := -9, stdout := "", stderr := "" }
    artifact_is_file := true }

/-- The process exited with code 1; the artifact exists. -/
def envExitOne : Env :=
  { run_result := .ok
      { returncode := 1, stdout := "line one\nline two", stderr := "" }
    artifact_is_file := true }

/-! ### The claims -/

/-- Claim C1 (amended): an invocation of `save_singlefile` that returns a
Result has `status = 'failed'` iff the process exited with a code strictly
greater than zero or the expected artifact is absent afterwards.  An
invocation in which `run` raises (timeout, launch failure) returns no Result
at all, and a negative (signal) exit code with the artifact present yields
`'succeeded'`. -/
theorem c1_status_failed_iff (cfg : Config) (url out_dir : String) (env : Env)
    (so : SaveOutcome) (h : save_singlefile cfg url out_dir env = .ok so) :
    ∃ ro, env.run_result = .ok ro ∧
      (so.result.status = "failed" ↔
        (ro.returncode > 0 ∨ env.artifact_is_file = false)) := by
  cases henv : env.run_result with
  | ok ro =>
    refine ⟨ro, rfl, ?_⟩
    simp only [save_singlefile, henv] at h
    split at h
    · rename_i hcond
      injection h with h'
      subst h'
      exact ⟨fun _ => hcond, fun _ => rfl⟩
    · rename_i hcond
      injection h with h'
      subst h'
      exact ⟨fun hst => absurd hst (by simp), fun hc => absurd hc hcond⟩
  | timeoutExpired => simp [save_singlefile, henv] at h
  | osError => simp [save_singlefile, henv] at h

/-- Witness for C1 at a concrete input: exit code 1 with the artifact
present returns a Result satisfying the equivalence. -/
theorem c1_status_failed_iff_witness :
    ∃ so, save_singlefile cfgDemo "http://example.com" "/out" envExitOne =
        .ok so ∧
      ∃ ro, envExitOne.run_result = .ok ro ∧
        (so.result.status = "failed" ↔
          (ro.returncode > 0 ∨ envExitOne.artifact_is_file = false)) :=
  ⟨_, rfl,
    c1_status_failed_iff cfgDemo "http://example.com" "/out" envExitOne _ rfl⟩

/-- Counterexample to C1 as stated: the process was terminated by a signal
(exit code -9, hence non-zero), the artifact is present and no fault
occurred, yet the returned Result's status is `'succeeded'`, not
`'failed'`. -/
theorem c1_counterexample :
    ∃ so, save_singlefile cfgDemo "http://example.com" "/out" envSignal =
        .ok so ∧
      ¬ (so.result.status = "failed" ↔
          ((-9 : Int) ≠ 0 ∨ envSignal.artifact_is_file = false)) := by
  refine ⟨_, rfl, ?_⟩
  decide

/-- Claim C2 (code bug): when `run` raises — the deadline elapsed
(`Timeout`) or the process could not be launched (`ToolUnavailable`) — the
`except` block dereferences `result`, which is still `None`, so an
`AttributeError` escapes `save_singlefile` instead of a Result capturing the
error being returned. -/
theorem c2_fault_escapes (cfg : Config) (url out_dir : String) (b : Bool) :
    save_singlefile cfg url out_dir
        { run_result := .timeoutExpired, artifact_is_file := b } =
      .error .attributeError ∧
    save_singlefile cfg url out_dir
        { run_result := .osError, artifact_is_file := b } =
      .error .attributeError :=
  ⟨rfl, rfl⟩

/-- Claim C3 (code bug): an invocation whose process does not exit within
the timeout produces no Result at all — `run` raises `TimeoutExpired` and
the handler's `result.stdout` dereference of `None` raises `AttributeError`
— so no failed Result of kind Timeout with a recorded duration exists. -/
theorem c3_timeout_no_result (cfg : Config) (url out_dir : String) (b : Bool) :
    (save_singlefile cfg url out_dir
        { run_result := .timeoutExpired, artifact_is_file := b }).toOption =
      none ∧
    save_singlefile cfg url out_dir
        { run_result := .timeoutExpired, artifact_is_file := b } =
      .error .attributeError :=
  ⟨rfl, rfl⟩

/-- Claim C4 (amended): the computed hints are the synthetic exit-code hint
followed by the output tail; the tail consists of the stripped non-empty
lines among the last five newline-separated segments of the output — a
suffix of the output's non-empty lines, of length at most five — and for an
output of 8 non-empty lines with no trailing newline it is exactly the last
5 lines in original order. -/
theorem c4_tail_hints (rc : Int) (s : String) :
    hintsOf rc s =
      ("Got single-file response code: " ++ toString rc ++ ".") ::
        outputTail s ∧
    List.IsSuffix (outputTail s) (specNonEmptyLines s) ∧
    (outputTail s).length ≤ 5 ∧
    outputTail "l1\nl2\nl3\nl4\nl5\nl6\nl7\nl8" =
      ["l4", "l5", "l6", "l7", "l8"] :=
  ⟨rfl, outputTail_suffix s, outputTail_length_le s, by decide⟩

/-- Counterexample to C4 as stated: an output of 8 non-empty lines followed
by a trailing newline.  The last five newline-separated segments include the
empty final segment, so the tail hints keep only the last 4 lines — not
exactly the last 5. -/
theorem c4_counterexample :
    (specNonEmptyLines "l1\nl2\nl3\nl4\nl5\nl6\nl7\nl8\n").length = 8 ∧
    outputTail "l1\nl2\nl3\nl4\nl5\nl6\nl7\nl8\n" =
      ["l5", "l6", "l7", "l8"] ∧
    ¬ outputTail "l1\nl2\nl3\nl4\nl5\nl6\nl7\nl8\n" =
        ["l4", "l5", "l6", "l7", "l8"] := by
  decide

/-- Claim C5: deduplication keys each argument by the substring before its
first `=` (the full string when it has none), keeps the first occurrence of
each key and drops every later argument with the same key: the result is a
sublist of the input with pairwise distinct keys that covers every input
key, and each kept element is the first element of the input carrying its
key; for extra args `["--a=1", "--b=2", "--a=9"]` the built command contains
`--a=1` and `--b=2` but never `--a=9`. -/
theorem c5_dedup_first_wins (options : List String) :
    List.Sublist (dedupedOptions options) options ∧
    ((dedupedOptions options).map optionName).Nodup ∧
    (∀ a ∈ options, ∃ b ∈ dedupedOptions options,
      optionName b = optionName a) ∧
    (∀ b ∈ dedupedOptions options,
      options.find? (fun x => optionName x == optionName b) = some b) ∧
    ("--a=1" ∈ buildCmd cfgDemo "http://example.com" ∧
     "--b=2" ∈ buildCmd cfgDemo "http://example.com" ∧
     ¬ "--a=9" ∈ buildCmd cfgDemo "http://example.com") :=
  ⟨dedupeGo_sublist [] options, dedupeGo_keys_nodup [] options,
    fun _ ha => dedupeGo_covers ha (List.not_mem_nil _),
    fun _ hb => dedupeGo_first_wins hb, by decide⟩

/-- Claim C6: every failed invocation that returns a Result attaches to its
error the entire combined captured output split on newlines — full context,
not the at-most-five-line tail used for the success-path hints. -/
theorem c6_failed_hints_full_output (cfg : Config) (url out_dir : String)
    (env : Env) (so : SaveOutcome)
    (h : save_singlefile cfg url out_dir env = .ok so)
    (hf : so.result.status = "failed") :
    ∃ ro e, env.run_result = .ok ro ∧ so.result.output = .error e ∧
      e.hints = pySplit (ro.stdout ++ ro.stderr) '\n' := by
  cases henv : env.run_result with
  | ok ro =>
    simp only [save_singlefile, henv] at h
    split at h
    · injection h with h'
      subst h'
      exact ⟨ro, _, rfl, rfl, rfl⟩
    · injection h with h'
      subst h'
      exact absurd hf (by simp)
  | timeoutExpired => simp [save_singlefile, henv] at h
  | osError => simp [save_singlefile, henv] at h

/-- Witness for C6 at a concrete input: exit code 1, artifact present. -/
theorem c6_failed_hints_full_output_witness :
    ∃ so, save_singlefile cfgDemo "http://example.com" "/out" envExitOne =
        .ok so ∧
      ∃ ro e, envExitOne.run_result = .ok ro ∧
        so.result.output = .error e ∧
        e.hints = pySplit (ro.stdout ++ ro.stderr) '\n' :=
  ⟨_, rfl, c6_failed_hints_full_output cfgDemo "http://example.com" "/out"
    envExitOne _ rfl (by decide)⟩

/-- Claim C7: for a non-static target with the artifact already present and
overwrite false, `should_save_singlefile` returns false whatever the value
of the `SAVE_SINGLEFILE` flag; the embedded gate is a pure function, so the
call has no side effects. -/
theorem c7_gate_artifact_exists (cfg : Config) :
    should_save_singlefile cfg false true false = false :=
  rfl

/-- Claim C8: exit code 0 with the artifact present yields a succeeded
Result whose output field is the artifact filename `singlefile.html`, with
`chmod_file` invoked on the artifact before the record is returned. -/
theorem c8_success_artifact (cfg : Config)
    (url out_dir stdout stderr : String) :
    save_singlefile cfg url out_dir
        { run_result := .ok
            { returncode := 0, stdout := stdout, stderr := stderr }
          artifact_is_file := true } =
      .ok { result := { cmd := buildCmd cfg url
                        pwd := out_dir
                        cmd_version := cfg.SINGLEFILE_VERSION
                        output := .artifact "singlefile.html"
                        status := "succeeded" }
            chmod_called := true } :=
  rfl

/-- Claim C9 (amended): on every failed invocation that returns a Result,
the recorded command is the built command with index 2 overwritten by the
quote-escaped browser-args string — whatever argument deduplication placed
at that position — with every other element unchanged; consequently the
recorded command differs from the executed one exactly when the escaped
string differs from the element at index 2. -/
theorem c9_failed_cmd_rewrite (cfg : Config) (url out_dir : String)
    (env : Env) (so : SaveOutcome)
    (h : save_singlefile cfg url out_dir env = .ok so)
    (hf : so.result.status = "failed") :
    so.result.cmd =
      (buildCmd cfg url).set 2 (escapeQuotes (browserArgsStr cfg)) ∧
    (∀ i, i ≠ 2 → so.result.cmd[i]? = (buildCmd cfg url)[i]?) ∧
    (so.result.cmd = buildCmd cfg url ↔
      (buildCmd cfg url)[2]? = some (escapeQuotes (browserArgsStr cfg))) := by
  have hcmd : so.result.cmd =
      (buildCmd cfg url).set 2 (escapeQuotes (browserArgsStr cfg)) := by
    cases henv : env.run_result with
    | ok ro =>
      simp only [save_singlefile, henv] at h
      split at h
      · injection h with h'
        subst h'
        rfl
      · injection h with h'
        subst h'
        exact absurd hf (by simp)
    | timeoutExpired => simp [save_singlefile, henv] at h
    | osError => simp [save_singlefile, henv] at h
  refine ⟨hcmd, ?_, ?_⟩
  · intro i hi
    rw [hcmd, List.getElem?_set_ne (Ne.symm hi)]
  · rw [hcmd]
    exact set_eq_self_iff _ 2 _ (two_lt_buildCmd_length cfg url)

/-- Witness for C9 at a concrete input: exit code 1, artifact present. -/
theorem c9_failed_cmd_rewrite_witness :
    ∃ so, save_singlefile cfgDemo "http://example.com" "/out" envExitOne =
        .ok so ∧
      so.result.cmd =
        (buildCmd cfgDemo "http://example.com").set 2
          (escapeQuotes (browserArgsStr cfgDemo)) :=
  ⟨_, rfl, (c9_failed_cmd_rewrite cfgDemo "http://example.com" "/out"
    envExitOne _ rfl (by decide)).1⟩

/-- Counterexample to C9's consequent as stated: the extra-args list
`["--a=1", "--browser-args=[]"]` is non-empty, yet the quote-free escaped
browser-args string is exactly what deduplication placed at index 2, the
overwrite rewrites the element to itself, and the recorded command equals
the executed one. -/
theorem c9_counterexample :
    ∃ so, save_singlefile cfgCoincide "http://example.com" "/out" envExitOne =
        .ok so ∧
      so.result.status = "failed" ∧
      ¬ cfgCoincide.SINGLEFILE_ARGS = [] ∧
      so.result.cmd = buildCmd cfgCoincide "http://example.com" :=
  ⟨_, rfl, by decide, by decide, by decide⟩

/-- Claim C10: the serialized browser-args argument is the last element of
the assembled options list and JSON-encodes the output of the shared
argument-generation helper — invoked with its timeout override set to zero —
with the first element (the browser binary) dropped. -/
theorem c10_browser_args_serialization (cfg : Config) :
    (optionsList cfg).getLast? =
      some ("--browser-args=" ++ jsonDumps ((cfg.chrome_args 0).drop 1)) := by
  simp [optionsList, List.getLast?_append, browserArgsStr]

end SingleFile
